import Mathlib

/-!
Verification of the WebDAV file-system layer of `nc_py_api/files.py`:
the search-query compiler (`_build_search_req`), the record parser
(`_parse_record` / `_parse_records`), the multistatus decoder
(`_lf_parse_webdav_records`), directory listing (`_listdir`) and
`makedirs`.  Python values, string operations and dictionaries are
embedded shallowly; external collaborators (URL decoding, the XML-to-dict
parser, RFC-2822 date parsing, the per-path transport results) are
abstracted as explicit functional parameters.
-/

namespace NcPyApi

/-! ## Python string primitives used by `files.py`

All primitives are written as structural recursion over the character
list of the string, so that every concrete instance evaluates inside the
kernel. -/

/- Does the character list start with the given pattern? -/
def charsPrefix : List Char → List Char → Bool
  | [], _ => true
  | _ :: _, [] => false
  | p :: ps, c :: cs => p = c && charsPrefix ps cs

/- Does the character list contain the pattern as a contiguous run? -/
def charsContains (pat : List Char) : List Char → Bool
  | [] => charsPrefix pat []
  | c :: cs => charsPrefix pat (c :: cs) || charsContains pat cs

def strStartsWith (s pat : String) : Bool := charsPrefix pat.data s.data

def strEndsWith (s pat : String) : Bool := charsPrefix pat.data.reverse s.data.reverse

/- `s.rstrip("/")` -/
def pyRstripSlash (s : String) : String :=
  ⟨(s.data.reverse.dropWhile (fun c => c = '/')).reverse⟩

/- `s.lstrip("/")` -/
def pyLstripSlash (s : String) : String := ⟨s.data.dropWhile (fun c => c = '/')⟩

/- `s.split("/")` on the character level: always returns at least one
(possibly empty) segment. -/
def splitSlash : List Char → List (List Char)
  | [] => [[]]
  | c :: cs =>
    let r := splitSlash cs
    if c = '/' then [] :: r
    else
      match r with
      | [] => [[c]]
      | seg :: rest => (c :: seg) :: rest

/- `s.rsplit("/", maxsplit=1)[-1]`: the part of `s` after its last `/`
(the whole string when there is no `/`). -/
def pyLastSegment (s : String) : String := ⟨(splitSlash s.data).getLastD []⟩

/- `s.find(pat) != -1` for a non-empty literal pattern. -/
def pyContains (s pat : String) : Bool := charsContains pat.data s.data

/- `s.replace(old, new)` for a non-empty `old`: replaces every
non-overlapping occurrence, scanning left to right.  The fuel is the
length of the remaining text, which strictly bounds the recursion. -/
def replaceCharsFuel (pat rep : List Char) : Nat → List Char → List Char
  | _, [] => []
  | 0, rest => rest
  | fuel + 1, c :: cs =>
    if pat ≠ [] && charsPrefix pat (c :: cs) then
      rep ++ replaceCharsFuel pat rep fuel ((c :: cs).drop pat.length)
    else
      c :: replaceCharsFuel pat rep fuel cs

def pyReplace (s pat rep : String) : String :=
  ⟨replaceCharsFuel pat.data rep.data s.data.length s.data⟩

/- One decimal digit. -/
def digitVal (c : Char) : Option Nat :=
  if '0' ≤ c ∧ c ≤ '9' then some (c.toNat - '0'.toNat) else none

def natOfCharsAux (acc : Nat) : List Char → Option Nat
  | [] => some acc
  | c :: cs =>
    match digitVal c with
    | some d => natOfCharsAux (acc * 10 + d) cs
    | none => none

def natOfChars : List Char → Option Nat
  | [] => none
  | l => natOfCharsAux 0 l

/- `int(s)`: an optional minus sign followed by at least one decimal
digit (the shape of every integer this client receives); `none` models a
raised `ValueError`. -/
def pyInt (s : String) : Option Int :=
  match s.data with
  | '-' :: rest => (natOfChars rest).map (fun n => -(n : Int))
  | l => (natOfChars l).map (fun n => (n : Int))

/-! ## The Python values fed to the search compiler

A search request is a Python `list` whose elements are strings, numbers,
booleans — or, if the caller passes the nested form, lists. -/

inductive Val where
  | s (v : String)
  | i (v : Int)
  | b (v : Bool)
  | lst (l : List Val)
deriving Repr

mutual

/- Python `repr` of a value (as used for elements inside `str(list)`). -/
def pyRepr : Val → String
  | .s v => "'" ++ v ++ "'"
  | .i v => toString v
  | .b true => "True"
  | .b false => "False"
  | .lst l => "[" ++ pyReprList l ++ "]"

def pyReprList : List Val → String
  | [] => ""
  | [x] => pyRepr x
  | x :: y :: rest => pyRepr x ++ ", " ++ pyReprList (y :: rest)

end

/- Python `str` of a value, as interpolated by an f-string. -/
def pyStr : Val → String
  | .s v => v
  | v => pyRepr v

/-! ## The XML tree built through `xml.etree.ElementTree` -/

inductive XML where
  | elem (tag : String) (text : Option String) (children : List XML)
deriving Repr

/-! ## Search compiler (`SEARCH_PROPERTIES_MAP`, `_build_search_req`) -/

/- The literal table from `files.py` (note the `"name:"` key, verbatim
from the source). -/
def SEARCH_PROPERTIES_MAP : List (String × String) :=
  [("name:", "d:displayname"),
   ("mime", "d:getcontenttype"),
   ("last_modified", "d:getlastmodified"),
   ("size", "oc:size"),
   ("favorite", "oc:favorite"),
   ("fileid", "oc:fileid")]

/- Errors a `_build_search_req` call can raise: `req.pop(0)` on an empty
list (`IndexError`), a dictionary miss (`KeyError`) and an unhashable
key (`TypeError`). -/
inductive SErr where
  | indexError
  | keyError (k : Val)
  | typeError
deriving Repr

/- `SEARCH_PROPERTIES_MAP[key]` for an arbitrary Python key: a list is
unhashable (`TypeError`); an int or bool key is hashable but is never
among the string keys of the table (`KeyError`). -/
def searchPropLookup : Val → Except SErr String
  | .s k =>
    match (SEARCH_PROPERTIES_MAP.lookup k) with
    | some v => .ok v
    | none => .error (.keyError (.s k))
  | .i k => .error (.keyError (.i k))
  | .b k => .error (.keyError (.b k))
  | .lst _ => .error .typeError

/- `first_val in ("or", "and")`: only the strings `"or"` and `"and"`
compare equal to those tuple members in Python. -/
def isOrAnd : Val → Bool
  | .s "or" => true
  | .s "and" => true
  | _ => false

/- `_add_value` / `_process_or_and`: consumes tokens from the front of
the work list and returns the XML element appended under the current
parent together with the remaining list (strictly shorter, which also
drives termination). -/
def addValue : (req : List Val) → Except SErr (XML × { r : List Val // r.length < req.length })
  | [] => .error .indexError
  | first :: rest =>
    if isOrAnd first then
      match addValue rest with
      | .error e => .error e
      | .ok (c1, ⟨r1, h1⟩) =>
        match addValue r1 with
        | .error e => .error e
        | .ok (c2, ⟨r2, h2⟩) =>
          .ok (XML.elem ("d:" ++ pyStr first) none [c1, c2],
               ⟨r2, by simp only [List.length_cons]; omega⟩)
    else
      -- _root = SubElement(xml_element, f"d:{first_val}")
      let tag := "d:" ++ pyStr first
      match rest with
      | [] => .error .indexError
      | fieldKey :: rest2 =>
        match searchPropLookup fieldKey with
        | .error e => .error e
        | .ok propTag =>
          match rest2 with
          | [] => .error .indexError
          | value :: rest3 =>
            .ok (XML.elem tag none
                   [XML.elem "d:prop" none [XML.elem propTag none []],
                    XML.elem "d:literal" (some (pyStr value)) []],
                 ⟨rest3, by simp only [List.length_cons]; omega⟩)
termination_by req => req.length
decreasing_by
  · simp only [List.length_cons]; omega
  · simp only [List.length_cons]; omega

/- `_build_search_req`: drains the work list, appending each produced
clause as a sibling under the `d:where` element; returns the list of
clauses appended. -/
def buildSearchReq : (req : List Val) → Except SErr (List XML)
  | [] => .ok []
  | first :: rest =>
    match addValue (first :: rest) with
    | .error e => .error e
    | .ok (x, ⟨r, hr⟩) =>
      match buildSearchReq r with
      | .error e => .error e
      | .ok xs => .ok (x :: xs)
termination_by req => req.length
decreasing_by exact hr

/-! ## The `FsNode` data model

Timestamps (`datetime` instants) are embedded as integers; the default
`datetime(1970, 1, 1)` (the epoch) is `0`.  RFC-2822 parsing
(`email.utils.parsedate_to_datetime`, an external collaborator) is a
parameter `parsedate : String → Option Int`, `none` modelling the
`ValueError` it raises on an invalid string. -/

structure FsNodeInfo where
  nc_id : String
  fileid : Int
  etag : String
  size : Int
  content_length : Int
  last_modified : Int
  permissions : String
  favorite : Bool
deriving Repr, DecidableEq

structure FsNode where
  user : String
  path : String
  name : String
  info : FsNodeInfo
deriving Repr, DecidableEq

/- `FsNode.__init__` with no metadata keyword arguments: every `info`
entry takes its default. -/
def FsNode.mk0 (user path name : String) : FsNode :=
  ⟨user, path, name, ⟨"", 0, "", 0, 0, 0, "", false⟩⟩

def FsNode.is_dir (n : FsNode) : Bool := strEndsWith n.path "/"

def FsNode.full_path (n : FsNode) : String :=
  if n.user != "" then n.user ++ "/" ++ pyLstripSlash n.path else n.path

/- The `last_modified` property getter. -/
def FsNode.last_modified (n : FsNode) : Int := n.info.last_modified

/- Python exceptions that can escape the parsing layer. -/
inductive PyErr where
  | valueError
  | keyError (k : String)
deriving Repr, DecidableEq

/- The `last_modified` property setter on a string argument:
`info["last_modified"] = parsedate_to_datetime(value)`, which raises
`ValueError` on an invalid string. -/
def FsNode.setLastModifiedStr (parsedate : String → Option Int) (n : FsNode) (value : String) :
    Except PyErr FsNode :=
  match parsedate value with
  | some t => .ok { n with info := { n.info with last_modified := t } }
  | none => .error .valueError

/-! ## Record parser (`_parse_record`) -/

/- One `d:propstat` block as decoded by `xmltodict`: an optional
`d:status` string and the `d:prop` dictionary (an association list with
distinct keys; property values are the decoded strings). -/
structure PropStat where
  status : Option String
  prop : List (String × String)
deriving Repr, DecidableEq

/- One step of the `for prop_stat in prop_stats` loop: skip the block
unless its status contains "200 OK", otherwise read each known property
that is present.  `int()` failures (`ValueError`) propagate; a
`last_modified` parse failure is swallowed by the
`try ... except ValueError: pass`. -/
def applyPropStat (parsedate : String → Option Int) (n : FsNode) (ps : PropStat) :
    Except PyErr FsNode :=
  if !pyContains (ps.status.getD "") "200 OK" then .ok n
  else
    let prop := ps.prop
    let n := match prop.lookup "oc:id" with
      | some v => { n with info := { n.info with nc_id := v } }
      | none => n
    match (match prop.lookup "oc:fileid" with
           | some v =>
             match pyInt v with
             | some k => Except.ok { n with info := { n.info with fileid := k } }
             | none => Except.error PyErr.valueError
           | none => Except.ok n : Except PyErr FsNode) with
    | .error e => .error e
    | .ok n =>
    match (match prop.lookup "oc:size" with
           | some v =>
             match pyInt v with
             | some k => Except.ok { n with info := { n.info with size := k } }
             | none => Except.error PyErr.valueError
           | none => Except.ok n : Except PyErr FsNode) with
    | .error e => .error e
    | .ok n =>
    match (match prop.lookup "d:getcontentlength" with
           | some v =>
             match pyInt v with
             | some k => Except.ok { n with info := { n.info with content_length := k } }
             | none => Except.error PyErr.valueError
           | none => Except.ok n : Except PyErr FsNode) with
    | .error e => .error e
    | .ok n =>
      let n := match prop.lookup "d:getetag" with
        | some v => { n with info := { n.info with etag := v } }
        | none => n
      let n := match prop.lookup "d:getlastmodified" with
        | some v =>
          match parsedate v with
          | some t => { n with info := { n.info with last_modified := t } }
          | none => n
        | none => n
      let n := match prop.lookup "oc:permissions" with
        | some v => { n with info := { n.info with permissions := v } }
        | none => n
      match prop.lookup "oc:favorite" with
      | some v =>
        match pyInt v with
        | some k => Except.ok { n with info := { n.info with favorite := k != 0 } }
        | none => Except.error PyErr.valueError
      | none => Except.ok n

/- The `for prop_stat in prop_stats` loop of `_parse_record`. -/
def parseRecordLoop (parsedate : String → Option Int) (n : FsNode) :
    List PropStat → Except PyErr FsNode
  | [] => .ok n
  | ps :: rest =>
    match applyPropStat parsedate n ps with
    | .error e => .error e
    | .ok n2 => parseRecordLoop parsedate n2 rest

/- `_parse_record`: start from a node with all defaults and run the
propstat loop over it. -/
def parseRecord (parsedate : String → Option Int) (prop_stats : List PropStat)
    (user obg_rel_path obj_name : String) : Except PyErr FsNode :=
  parseRecordLoop parsedate (FsNode.mk0 user obg_rel_path obj_name) prop_stats

/-! ## Record list processing (`_parse_records`) -/

/- `record["d:propstat"]` is either a single block or a list of blocks,
depending on the shape `xmltodict` produced. -/
inductive PropStatField where
  | one (p : PropStat)
  | many (l : List PropStat)
deriving Repr, DecidableEq

/- `propstat if isinstance(propstat, list) else [propstat]`. -/
def PropStatField.toList : PropStatField → List PropStat
  | .one p => [p]
  | .many l => l

/- One `d:response` entry: `d:href` (may be missing, `.get` defaults to
`""`) and the mandatory `d:propstat`. -/
structure WebDavRecord where
  href : Option String
  propstat : PropStatField
deriving Repr, DecidableEq

/- `_dav_get_obj_path`. -/
def dav_get_obj_path (user : String) (path : String := "") : String :=
  let o := "/files"
  let o := if user != "" then o ++ "/" ++ user else o
  if path != "" then o ++ "/" ++ pyLstripSlash path else o

/- The external collaborators `_parse_records` touches: `urllib`'s
`unquote`, the session's `cfg.dav_url_suffix`, the RFC-2822 date parser,
and the remote-lookup result backing `by_path` (the single round trip
`listdir(path, exclude_self=False)[0] or None`). -/
structure Env where
  unquote : String → String
  dav_url_suffix : String
  parsedate : String → Option Int
  by_path : String → Option FsNode

/- `obj_name` as computed in the loop of `_parse_records`: the last
segment of the right-stripped, unquoted href. -/
def recordObjName (env : Env) (record : WebDavRecord) : String :=
  pyLastSegment (pyRstripSlash (env.unquote (record.href.getD "")))

/- `obg_rel_path` as computed in the loop of `_parse_records`: the
unquoted href with every occurrence of the per-user DAV prefix removed,
then left-stripped of slashes. -/
def recordRelPath (env : Env) (record : WebDavRecord) (user : String) : String :=
  pyLstripSlash (pyReplace (env.unquote (record.href.getD ""))
    (env.dav_url_suffix ++ dav_get_obj_path user) "")

/- One iteration of the `for record in fs_records` loop of
`_parse_records`: contributes zero or one node to the result. -/
def processRecord (env : Env) (record : WebDavRecord) (user : String) (favorite : Bool) :
    Except PyErr (List FsNode) :=
  let obj_name := recordObjName env record
  if obj_name = "" then .ok []
  else
    let obg_rel_path := recordRelPath env record user
    match parseRecord env.parsedate record.propstat.toList user obg_rel_path obj_name with
    | .error e => .error e
    | .ok fs_node =>
      if favorite && fs_node.info.fileid == 0 then
        match env.by_path fs_node.path with
        | some n => .ok [{ n with info := { n.info with favorite := true } }]
        | none => .ok []
      else if fs_node.info.fileid != 0 then .ok [fs_node]
      else .ok []

/- `_parse_records`. -/
def parseRecords (env : Env) (fs_records : List WebDavRecord) (user : String) (favorite : Bool) :
    Except PyErr (List FsNode) :=
  match fs_records with
  | [] => .ok []
  | r :: rs =>
    match processRecord env r user favorite with
    | .error e => .error e
    | .ok xs =>
      match parseRecords env rs user favorite with
      | .error e => .error e
      | .ok ys => .ok (xs ++ ys)

/-! ## Multistatus decoder (`_lf_parse_webdav_records`) -/

structure NcException where
  status_code : Option Int
  reason : String
  info : String
deriving Repr, DecidableEq

inductive NcErr where
  | nc (e : NcException)
  | py (e : PyErr)
deriving Repr, DecidableEq

/-- Modelled from the spec: `check_error` lives in `exceptions.py`, which
is not under `src/`; per the spec it raises `RemoteError` (a
`NextcloudException` carrying the HTTP status and the diagnostic label)
exactly when the status code indicates failure, i.e. is outside the 2xx
success range. -/
def check_error (code : Int) (info : String) : Except NcErr Unit :=
  if 200 ≤ code ∧ code < 300 then .ok () else .error (.nc ⟨some code, "", info⟩)

/- The shape of `d:multistatus["d:response"]` under `xmltodict`: missing
(`.get` defaults to `[]`), a single dictionary, or a list. -/
inductive RespShape where
  | absent
  | one (r : WebDavRecord)
  | many (rs : List WebDavRecord)
deriving Repr, DecidableEq

def RespShape.toList : RespShape → List WebDavRecord
  | .absent => []
  | .one r => [r]
  | .many rs => rs

/- The result of `loads(dumps(xmltodict.parse(text)))`, restricted to
the two top-level keys the decoder looks at: an optional `d:error`
payload (its `s:exception` and `s:message` strings) and the optional
`d:multistatus` root with its `d:response` entries. -/
structure ParsedDoc where
  err : Option (String × String)
  multistatus : Option RespShape

/- `_lf_parse_webdav_records`, with `xmltodict.parse` abstracted as
`xmlparse`. -/
def lfParseWebdavRecords (env : Env) (xmlparse : String → ParsedDoc) (status_code : Int)
    (text : String) (user info : String) (favorite : Bool := false) :
    Except NcErr (List FsNode) :=
  match check_error status_code info with
  | .error e => .error e
  | .ok _ =>
    if status_code != 207 then
      .error (NcErr.nc ⟨some status_code, "Response is not a multistatus.", info⟩)
    else if text = "" then
      .error (NcErr.nc ⟨some status_code, "Response is empty.", info⟩)
    else
      let doc := xmlparse text
      match doc.err with
      | some (ex, msg) => .error (NcErr.nc ⟨none, pyReplace (ex ++ ": " ++ msg) "\n" "", info⟩)
      | none =>
        match doc.multistatus with
        | none => .error (NcErr.py (.keyError "d:multistatus"))
        | some shape =>
          match parseRecords env shape.toList user favorite with
          | .error e => .error (NcErr.py e)
          | .ok l => .ok l

/-! ## Directory listing (`_listdir`) -/

def PROPFIND_PROPERTIES : List String :=
  ["d:resourcetype", "d:getlastmodified", "d:getcontentlength", "d:getetag",
   "oc:size", "oc:id", "oc:fileid", "oc:downloadURL", "oc:dDC", "oc:permissions",
   "oc:checksums", "oc:share-types", "oc:favorite", "nc:is-encrypted", "nc:lock",
   "nc:lock-owner-displayname", "nc:lock-owner", "nc:lock-owner-type",
   "nc:lock-owner-editor", "nc:lock-time", "nc:lock-timeout"]

/- `f"{user}/{path}".rstrip("/") if user else path.rstrip("/")`. -/
def listdirSelfPath (user path : String) : String :=
  if user != "" then pyRstripSlash (user ++ "/" ++ path) else pyRstripSlash path

/- The `for index, v in enumerate(result): if ...: del result[index];
break` loop: deletes the first node whose right-stripped full path equals
`full_path`, then stops. -/
def removeFirstSelf (full_path : String) : List FsNode → List FsNode
  | [] => []
  | v :: rest =>
    if pyRstripSlash v.full_path = full_path then rest
    else v :: removeFirstSelf full_path rest

/- `_listdir`, from the decoded transport response on: the PROPFIND
request construction is pure XML assembly feeding the transport and is
not observable in the returned value. -/
def listdirRequestInfo (user path : String) : String :=
  "list: " ++ user ++ ", " ++ path ++ ", " ++ pyRepr (Val.lst (PROPFIND_PROPERTIES.map Val.s))

def listdirModel (env : Env) (xmlparse : String → ParsedDoc) (status_code : Int) (text : String)
    (user path : String) (exclude_self : Bool) : Except NcErr (List FsNode) :=
  match lfParseWebdavRecords env xmlparse status_code text user
      (listdirRequestInfo user path) false with
  | .error e => .error e
  | .ok result =>
    if exclude_self then
      .ok (removeFirstSelf (listdirSelfPath user path) result)
    else
      .ok result

/-! ## `makedirs` -/

/- `os.path.join(a, b)` for POSIX paths. -/
def pyJoin (a b : String) : String :=
  if strStartsWith b "/" then b
  else if a = "" then b
  else if strEndsWith a "/" then a ++ b
  else a ++ "/" ++ b

/- `pathlib.Path(path).parts` for a POSIX path: the root (when the path
is absolute) followed by the non-empty, non-"." components. -/
def pathParts (s : String) : List String :=
  let comps := ((splitSlash s.data).filter (fun c => !(c = [] || c = ['.']))).map
    (fun c => String.mk c)
  if strStartsWith s "/" then "/" :: comps else comps

/- The loop of `makedirs` over the remaining parts, given the join
accumulator so far.  `mk q` is the outcome of the single round trip
`self.mkdir(q)`: `none` on success, `some code` when it raises a
`NextcloudException` with that HTTP status code.  Returns the list of
paths on which `mkdir` was invoked, in order, and the status code of the
exception that escaped, if any. -/
def makedirsLoop (mk : String → Option Int) (exist_ok : Bool) :
    String → List String → List String × Option Int
  | _, [] => ([], none)
  | acc, i :: rest =>
    let acc2 := pyJoin acc i
    match mk acc2 with
    | none =>
      let (calls, err) := makedirsLoop mk exist_ok acc2 rest
      (acc2 :: calls, err)
    | some code =>
      if exist_ok then
        if code != 405 then ([acc2], some code)
        else
          let (calls, err) := makedirsLoop mk exist_ok acc2 rest
          (acc2 :: calls, err)
      else ([acc2], some code)

/- `makedirs`. -/
def makedirs (mk : String → Option Int) (path : String) (exist_ok : Bool := false) :
    List String × Option Int :=
  makedirsLoop mk exist_ok "" (pathParts path)

/- The cumulative single-level paths `makedirs` creates, root to leaf. -/
def makedirsPaths (acc : String) : List String → List String
  | [] => []
  | i :: rest => let acc2 := pyJoin acc i; acc2 :: makedirsPaths acc2 rest

/-! ## Theorems -/

/- Any successful `addValue` on a list starting with an `"and"`/`"or"`
token yields a boolean-grouping element with exactly two children, each
produced from the tokens that follow. -/
theorem addValue_orAnd_shape (first : Val) (rest : List Val) (hOA : isOrAnd first = true)
    (x : XML) (rem : { r : List Val // r.length < (first :: rest).length })
    (h : addValue (first :: rest) = .ok (x, rem)) :
    ∃ c1 c2, x = XML.elem ("d:" ++ pyStr first) none [c1, c2] := by
  rw [addValue] at h
  simp only [hOA, if_true] at h
  cases h1 : addValue rest with
  | error e => rw [h1] at h; exact absurd h (by simp)
  | ok p1 =>
    obtain ⟨c1, r1, hr1⟩ := p1
    rw [h1] at h
    dsimp only at h
    cases h2 : addValue r1 with
    | error e => rw [h2] at h; exact absurd h (by simp)
    | ok p2 =>
      obtain ⟨c2, r2, hr2⟩ := p2
      rw [h2] at h
      dsimp only at h
      simp only [Except.ok.injEq, Prod.mk.injEq] at h
      exact ⟨c1, c2, h.1.symm⟩

/-- C1: in the code's `SEARCH_PROPERTIES_MAP` the displayname entry is
keyed `"name:"` (a slip — the code's own comment documents the field as
`"name"`), so compiling `["eq", "name", "test"]` raises a `KeyError` for
`"name"` instead of emitting `d:displayname`; the literal `"name:"` key
and the five other documented fields compile to their remote property
elements, and an unknown field is rejected with a `KeyError`, never
silently ignored. -/
theorem c1_search_field_table :
    buildSearchReq [Val.s "eq", Val.s "name", Val.s "test"]
        = .error (SErr.keyError (Val.s "name")) ∧
    buildSearchReq [Val.s "eq", Val.s "name:", Val.s "test"]
        = .ok [XML.elem "d:eq" none
            [XML.elem "d:prop" none [XML.elem "d:displayname" none []],
             XML.elem "d:literal" (some "test") []]] ∧
    buildSearchReq [Val.s "like", Val.s "mime", Val.s "image/%"]
        = .ok [XML.elem "d:like" none
            [XML.elem "d:prop" none [XML.elem "d:getcontenttype" none []],
             XML.elem "d:literal" (some "image/%") []]] ∧
    buildSearchReq [Val.s "gt", Val.s "last_modified", Val.s "Thu, 01 Jan 1970 00:00:00 GMT"]
        = .ok [XML.elem "d:gt" none
            [XML.elem "d:prop" none [XML.elem "d:getlastmodified" none []],
             XML.elem "d:literal" (some "Thu, 01 Jan 1970 00:00:00 GMT") []]] ∧
    buildSearchReq [Val.s "gte", Val.s "size", Val.i 1024]
        = .ok [XML.elem "d:gte" none
            [XML.elem "d:prop" none [XML.elem "oc:size" none []],
             XML.elem "d:literal" (some "1024") []]] ∧
    buildSearchReq [Val.s "eq", Val.s "favorite", Val.b true]
        = .ok [XML.elem "d:eq" none
            [XML.elem "d:prop" none [XML.elem "oc:favorite" none []],
             XML.elem "d:literal" (some "True") []]] ∧
    buildSearchReq [Val.s "eq", Val.s "fileid", Val.i 42]
        = .ok [XML.elem "d:eq" none
            [XML.elem "d:prop" none [XML.elem "oc:fileid" none []],
             XML.elem "d:literal" (some "42") []]] ∧
    buildSearchReq [Val.s "eq", Val.s "no_such_field", Val.i 1]
        = .error (SErr.keyError (Val.s "no_such_field")) := by
  refine ⟨?_, ?_, ?_, ?_, ?_, ?_, ?_, ?_⟩ <;>
    simp [buildSearchReq, addValue, searchPropLookup, SEARCH_PROPERTIES_MAP, isOrAnd,
      pyStr, pyRepr, List.lookup] <;> rfl

/-- C2 counterexample: compiling the nested-list expression
`["and", ["eq", "fileid", 42], ["eq", "favorite", True]]` does not
produce XML at all — the inner list is popped as a dictionary key for
`SEARCH_PROPERTIES_MAP` and raises `TypeError: unhashable type`. -/
theorem c2_nested_operands_type_error :
    buildSearchReq [Val.s "and", Val.lst [Val.s "eq", Val.s "fileid", Val.i 42],
        Val.lst [Val.s "eq", Val.s "favorite", Val.b true]]
      = .error SErr.typeError := by
  simp [buildSearchReq, addValue, searchPropLookup, SEARCH_PROPERTIES_MAP, isOrAnd,
    pyStr, pyRepr, List.lookup]

/-- C2 (amended): an `"and"`/`"or"` token consumes its two operand
sub-expressions inline from the same flat work list; every successful
compilation of a list starting with `"and"` yields exactly one `d:and`
wrapper with exactly two children as its first clause, and the flat
expression `["and", "eq", "fileid", 42, "eq", "favorite", True]`
compiles to exactly one `d:and` wrapper whose two leaf clauses reference
`oc:fileid` and `oc:favorite`. -/
theorem c2_and_consumes_two_operands :
    (∀ (rest : List Val) (res : List XML),
        buildSearchReq (Val.s "and" :: rest) = .ok res →
        ∃ c1 c2 tl, res = XML.elem "d:and" none [c1, c2] :: tl) ∧
    buildSearchReq [Val.s "and", Val.s "eq", Val.s "fileid", Val.i 42,
        Val.s "eq", Val.s "favorite", Val.b true]
      = .ok [XML.elem "d:and" none
          [XML.elem "d:eq" none
             [XML.elem "d:prop" none [XML.elem "oc:fileid" none []],
              XML.elem "d:literal" (some "42") []],
           XML.elem "d:eq" none
             [XML.elem "d:prop" none [XML.elem "oc:favorite" none []],
              XML.elem "d:literal" (some "True") []]]] := by
  constructor
  · intro rest res h
    rw [buildSearchReq] at h
    cases h1 : addValue (Val.s "and" :: rest) with
    | error e => rw [h1] at h; exact absurd h (by simp)
    | ok p =>
      obtain ⟨x, r, hr⟩ := p
      rw [h1] at h
      dsimp only at h
      obtain ⟨c1, c2, hx⟩ := addValue_orAnd_shape (Val.s "and") rest rfl x ⟨r, hr⟩ h1
      cases h2 : buildSearchReq r with
      | error e => rw [h2] at h; exact absurd h (by simp)
      | ok xs =>
        rw [h2] at h
        simp only [Except.ok.injEq] at h
        exact ⟨c1, c2, xs, by rw [← h, hx]; rfl⟩
  · simp [buildSearchReq, addValue, searchPropLookup, SEARCH_PROPERTIES_MAP, isOrAnd,
      pyStr, pyRepr, List.lookup]
    rfl

/- A concrete environment used to instantiate witnesses. -/
def env0 : Env := ⟨id, "/remote.php/dav", fun _ => none, fun _ => none⟩

/- A parse result holding an empty multistatus response list. -/
def emptyDoc : ParsedDoc := ⟨none, some (.many [])⟩

/- A propstat block with a non-200 status is skipped entirely. -/
theorem applyPropStat_skip (parsedate : String → Option Int) (n : FsNode) (ps : PropStat)
    (h : pyContains (ps.status.getD "") "200 OK" = false) :
    applyPropStat parsedate n ps = .ok n := by
  simp [applyPropStat, h]

/- A record whose propstat blocks are all skipped parses to the
all-defaults node. -/
theorem parseRecordLoop_skip (parsedate : String → Option Int) :
    ∀ (l : List PropStat) (n : FsNode),
      (∀ ps ∈ l, pyContains (ps.status.getD "") "200 OK" = false) →
      parseRecordLoop parsedate n l = .ok n
  | [], _, _ => rfl
  | ps :: l, n, h => by
    rw [parseRecordLoop, applyPropStat_skip parsedate n ps (h ps (by simp))]
    exact parseRecordLoop_skip parsedate l n (fun p hp => h p (by simp [hp]))

/- With `favorite = False`, one loop iteration of `_parse_records` only
ever contributes nodes with a non-zero file id. -/
theorem processRecord_plain_fileid_ne (env : Env) (r : WebDavRecord) (user : String)
    (xs : List FsNode) (h : processRecord env r user false = .ok xs) :
    ∀ n ∈ xs, n.info.fileid ≠ 0 := by
  unfold processRecord at h
  dsimp only at h
  split at h
  · cases h; intro n hn; cases hn
  · split at h
    · exact absurd h (by simp)
    · rename_i fs_node heq
      split at h
      · rename_i hfav
        rw [Bool.false_and] at hfav
        exact absurd hfav (by simp)
      · split at h
        · rename_i hfid
          cases h
          intro n hn
          rw [List.mem_singleton] at hn
          subst hn
          exact bne_iff_ne.mp hfid
        · cases h; intro n hn; cases hn

/- With `favorite = False`, `_parse_records` only returns nodes with a
non-zero file id. -/
theorem parseRecords_plain_fileid_ne (env : Env) :
    ∀ (records : List WebDavRecord) (user : String) (l : List FsNode),
      parseRecords env records user false = .ok l → ∀ n ∈ l, n.info.fileid ≠ 0
  | [], user, l, h => by
    simp only [parseRecords, Except.ok.injEq] at h
    subst h; intro n hn; cases hn
  | r :: rs, user, l, h => by
    rw [parseRecords] at h
    split at h
    · exact absurd h (by simp)
    · rename_i xs hxs
      split at h
      · exact absurd h (by simp)
      · rename_i ys hys
        simp only [Except.ok.injEq] at h
        subst h
        intro n hn
        rcases List.mem_append.mp hn with hmem | hmem
        · exact processRecord_plain_fileid_ne env r user xs hxs n hmem
        · exact parseRecords_plain_fileid_ne env rs user ys hys n hmem

/- With `favorite = False`, the whole decoder pipeline only returns
nodes with a non-zero file id. -/
theorem lfParse_plain_fileid_ne (env : Env) (xmlparse : String → ParsedDoc) (sc : Int)
    (text user info : String) (l : List FsNode)
    (h : lfParseWebdavRecords env xmlparse sc text user info false = .ok l) :
    ∀ n ∈ l, n.info.fileid ≠ 0 := by
  unfold lfParseWebdavRecords at h
  dsimp only at h
  split at h
  · exact absurd h (by simp)
  · split at h
    · exact absurd h (by simp)
    · split at h
      · exact absurd h (by simp)
      · split at h
        · exact absurd h (by simp)
        · split at h
          · exact absurd h (by simp)
          · split at h
            · exact absurd h (by simp)
            · rename_i l2 hl2
              simp only [Except.ok.injEq] at h
              subst h
              exact parseRecords_plain_fileid_ne env _ user l2 hl2

/-- C3: a record parsed from propstat blocks none of whose statuses
contain "200 OK" yields the all-defaults node, whose `fileid` is 0; and
a plain (non-favorites) decode — the path used by `listdir` and `find`
— never returns a node with `fileid = 0`. -/
theorem c3_placeholder_filtering :
    (∀ (parsedate : String → Option Int) (prop_stats : List PropStat) (user rel name : String),
        (∀ ps ∈ prop_stats, pyContains (ps.status.getD "") "200 OK" = false) →
        parseRecord parsedate prop_stats user rel name = .ok (FsNode.mk0 user rel name) ∧
        (FsNode.mk0 user rel name).info.fileid = 0) ∧
    (∀ (env : Env) (records : List WebDavRecord) (user : String) (l : List FsNode),
        parseRecords env records user false = .ok l → ∀ n ∈ l, n.info.fileid ≠ 0) ∧
    (∀ (env : Env) (xmlparse : String → ParsedDoc) (sc : Int) (text user info : String)
        (l : List FsNode),
        lfParseWebdavRecords env xmlparse sc text user info false = .ok l →
        ∀ n ∈ l, n.info.fileid ≠ 0) := by
  refine ⟨?_, ?_, ?_⟩
  · intro parsedate prop_stats user rel name h
    exact ⟨parseRecordLoop_skip parsedate prop_stats (FsNode.mk0 user rel name) h, rfl⟩
  · exact fun env records user l h => parseRecords_plain_fileid_ne env records user l h
  · exact fun env xmlparse sc text user info l h =>
      lfParse_plain_fileid_ne env xmlparse sc text user info l h

/-- C3 witness: a record whose single propstat block has no status at
all parses to the defaults node with `fileid = 0`, and a concrete
successful plain decode satisfies the non-zero-file-id guarantee. -/
theorem c3_placeholder_filtering_witness :
    (parseRecord (fun _ => none) [⟨none, [("oc:fileid", "42")]⟩] "bob" "Docs/" "Docs"
        = .ok (FsNode.mk0 "bob" "Docs/" "Docs") ∧
      (FsNode.mk0 "bob" "Docs/" "Docs").info.fileid = 0) ∧
    (∀ n ∈ ([] : List FsNode), n.info.fileid ≠ 0) :=
  ⟨c3_placeholder_filtering.1 (fun _ => none) [⟨none, [("oc:fileid", "42")]⟩] "bob" "Docs/" "Docs"
      (by intro ps hps; rw [List.mem_singleton] at hps; subst hps; rfl),
   c3_placeholder_filtering.2.2 env0 (fun _ => emptyDoc) 207 "t" "bob" "info" []
      (by rfl)⟩

/- A propstat block with an invalid (or unparsable) last-modified string
and no other properties leaves the node entirely unchanged and raises
nothing: the `ValueError` of the date parse is swallowed. -/
theorem applyPropStat_invalid_date (parsedate : String → Option Int) (n : FsNode)
    (status : Option String) (s : String) (hs : parsedate s = none) :
    applyPropStat parsedate n ⟨status, [("d:getlastmodified", s)]⟩ = .ok n := by
  cases hpc : pyContains (status.getD "") "200 OK" with
  | false => exact applyPropStat_skip parsedate n _ hpc
  | true => simp [applyPropStat, hpc, hs, List.lookup]

/-- C7: setting a node's last-modified field from a string the RFC-2822
parser accepts and reading it back yields exactly the instant the parser
produced; during record parsing an invalid last-modified string leaves
the node - and hence the previous last-modified value, the epoch (0)
default on a first parse - unchanged, and the operation returns
normally instead of raising. -/
theorem c7_last_modified_round_trip :
    (∀ (parsedate : String → Option Int) (n : FsNode) (s : String) (t : Int),
        parsedate s = some t →
        ∃ n2, FsNode.setLastModifiedStr parsedate n s = .ok n2 ∧ n2.last_modified = t) ∧
    (∀ (parsedate : String → Option Int) (n : FsNode) (status : Option String) (s : String),
        parsedate s = none →
        applyPropStat parsedate n ⟨status, [("d:getlastmodified", s)]⟩ = .ok n) ∧
    (∀ (parsedate : String → Option Int) (user rel name s : String),
        parsedate s = none →
        ∃ n, parseRecord parsedate [⟨some "HTTP/1.1 200 OK", [("d:getlastmodified", s)]⟩]
            user rel name = .ok n ∧ n.last_modified = 0) := by
  refine ⟨?_, applyPropStat_invalid_date, ?_⟩
  · intro parsedate n s t hs
    refine ⟨{ n with info := { n.info with last_modified := t } }, ?_, rfl⟩
    simp [FsNode.setLastModifiedStr, hs]
  · intro parsedate user rel name s hs
    refine ⟨FsNode.mk0 user rel name, ?_, rfl⟩
    have h1 := applyPropStat_invalid_date parsedate (FsNode.mk0 user rel name)
      (some "HTTP/1.1 200 OK") s hs
    simp [parseRecord, parseRecordLoop, h1]

/- A date parser accepting exactly one string, for the witness below. -/
def parsedate1 : String → Option Int :=
  fun s => if s = "Mon, 05 Feb 2024 18:21:55 GMT" then some 1707157315 else none

/-- C7 witness: the round trip at a concrete accepted string, and the
unchanged node at a concrete rejected string. -/
theorem c7_last_modified_round_trip_witness :
    (∃ n2, FsNode.setLastModifiedStr parsedate1 (FsNode.mk0 "bob" "a.txt" "a.txt")
        "Mon, 05 Feb 2024 18:21:55 GMT" = .ok n2 ∧ n2.last_modified = 1707157315) ∧
    applyPropStat parsedate1 (FsNode.mk0 "bob" "a.txt" "a.txt")
        ⟨some "HTTP/1.1 200 OK", [("d:getlastmodified", "not a date")]⟩
      = .ok (FsNode.mk0 "bob" "a.txt" "a.txt") ∧
    (∃ n, parseRecord parsedate1 [⟨some "HTTP/1.1 200 OK", [("d:getlastmodified", "not a date")]⟩]
        "bob" "a.txt" "a.txt" = .ok n ∧ n.last_modified = 0) :=
  ⟨c7_last_modified_round_trip.1 parsedate1 (FsNode.mk0 "bob" "a.txt" "a.txt")
      "Mon, 05 Feb 2024 18:21:55 GMT" 1707157315 (by decide),
   c7_last_modified_round_trip.2.1 parsedate1 (FsNode.mk0 "bob" "a.txt" "a.txt")
      (some "HTTP/1.1 200 OK") "not a date" (by decide),
   c7_last_modified_round_trip.2.2 parsedate1 "bob" "a.txt" "a.txt" "not a date" (by decide)⟩

/-- C6: in a favorites listing, an entry that parses to a node with
`fileid = 0` (and a non-empty name) triggers the supplementary `by_path`
lookup of the node's path; a hit is substituted into the result with its
favorite flag forced true and its own (looked-up) metadata kept, and a
miss drops the entry. -/
theorem c6_favorite_enrichment :
    ∀ (env : Env) (record : WebDavRecord) (user : String) (node : FsNode),
      recordObjName env record ≠ "" →
      parseRecord env.parsedate record.propstat.toList user (recordRelPath env record user)
          (recordObjName env record) = .ok node →
      node.info.fileid = 0 →
      ((∀ n, env.by_path node.path = some n →
          processRecord env record user true
            = .ok [{ n with info := { n.info with favorite := true } }]) ∧
       (env.by_path node.path = none → processRecord env record user true = .ok [])) := by
  intro env record user node hname hparse hfid
  constructor
  · intro n hbp
    simp [processRecord, hname, hparse, hfid, hbp]
  · intro hbp
    simp [processRecord, hname, hparse, hfid, hbp]

/- A concrete node returned by the supplementary lookup, and the
environment and favorites-report record around it. -/
def favNode : FsNode :=
  ⟨"bob", "Docs/a.txt", "a.txt", ⟨"00042oc", 42, "etag42", 7, 7, 99, "RGDNVW", false⟩⟩

def envFav : Env := ⟨id, "/remote.php/dav", fun _ => none, fun _ => some favNode⟩

def favRecord : WebDavRecord :=
  ⟨some "/remote.php/dav/files/bob/Docs/a.txt", .one ⟨none, []⟩⟩

/-- C6 witness: a favorites-report entry carrying only a path (its one
propstat block has no status, so the parsed node keeps `fileid = 0`) is
substituted by the looked-up node with `favorite` forced true. -/
theorem c6_favorite_enrichment_witness :
    processRecord envFav favRecord "bob" true
      = .ok [⟨"bob", "Docs/a.txt", "a.txt", ⟨"00042oc", 42, "etag42", 7, 7, 99, "RGDNVW", true⟩⟩] :=
  (c6_favorite_enrichment envFav favRecord "bob"
      (FsNode.mk0 "bob" "Docs/a.txt" "a.txt") (by decide) (by rfl) rfl).1
    favNode rfl

/- The name computation as the claim words it (for comparison with the
code): the href after stripping the per-user scope prefix and the
trailing slash, then taking the last path segment.  The code instead
computes the name from the full href, before any prefix stripping. -/
def specNameAfterScopeStrip (env : Env) (record : WebDavRecord) (user : String) : String :=
  pyLastSegment (pyRstripSlash (pyReplace (env.unquote (record.href.getD ""))
    (env.dav_url_suffix ++ dav_get_obj_path user) ""))

/- The scope root reflected back by the server: its href is exactly the
per-user prefix plus a trailing slash. -/
def selfEntryRecord : WebDavRecord :=
  ⟨some "/remote.php/dav/files/bob/", .one ⟨some "HTTP/1.1 200 OK", [("oc:fileid", "42")]⟩⟩

/-- C8 counterexample: an entry whose href, after stripping the
per-user scope prefix and the trailing slash, yields an empty name (the
queried scope root reflected back) is NOT discarded: its name is
computed from the full href before prefix stripping, so it parses to
the node named after the account and appears in the result. -/
theorem c8_self_scope_entry_kept :
    specNameAfterScopeStrip env0 selfEntryRecord "bob" = "" ∧
    parseRecords env0 [selfEntryRecord] "bob" false
      = .ok [⟨"bob", "", "bob", ⟨"", 42, "", 0, 0, 0, "", false⟩⟩] := by
  constructor
  · rfl
  · rfl

/-- C8 (amended): an entry is discarded — contributing no node to any
result — exactly on the code's own condition: when the name computed
from the full unquoted href (right-stripped of slashes, last path
segment) is empty, i.e. the href is empty or consists only of slashes;
the per-user scope prefix is not stripped before the name is computed. -/
theorem c8_empty_name_discarded :
    ∀ (env : Env) (record : WebDavRecord) (user : String) (favorite : Bool),
      recordObjName env record = "" →
      processRecord env record user favorite = .ok [] ∧
      ∀ (l1 l2 : List WebDavRecord),
        parseRecords env (l1 ++ record :: l2) user favorite
          = parseRecords env (l1 ++ l2) user favorite := by
  intro env record user favorite hname
  have hproc : processRecord env record user favorite = .ok [] := by
    simp [processRecord, hname]
  refine ⟨hproc, ?_⟩
  intro l1 l2
  induction l1 with
  | nil =>
    rw [List.nil_append, List.nil_append, parseRecords, hproc]
    cases hl2 : parseRecords env l2 user favorite with
    | error e => rfl
    | ok ys => simp
  | cons a l1 ih =>
    rw [List.cons_append, List.cons_append, parseRecords, parseRecords, ih]

/- A reflected root entry: its href strips to an empty name. -/
def slashRecord : WebDavRecord := ⟨some "/", .one ⟨none, []⟩⟩

/-- C8 witness: the empty-name discard applied to a concrete
slash-only href. -/
theorem c8_empty_name_discarded_witness :
    processRecord env0 slashRecord "bob" false = .ok [] ∧
    parseRecords env0 ([selfEntryRecord] ++ slashRecord :: []) "bob" false
      = parseRecords env0 ([selfEntryRecord] ++ []) "bob" false :=
  ⟨(c8_empty_name_discarded env0 slashRecord "bob" false (by decide)).1,
   (c8_empty_name_discarded env0 slashRecord "bob" false (by decide)).2 [selfEntryRecord] []⟩

/-- C4: the decoder raises a `NextcloudException` (the spec's
`RemoteError`) exactly when the status code indicates failure, or the
status code is not 207, or the body text is empty, or the parsed body
carries a top-level error payload; in the payload case the reason is
`"{exception}: {message}"` with newline characters removed. -/
theorem c4_decoder_error_conditions :
    ∀ (env : Env) (xmlparse : String → ParsedDoc) (sc : Int) (text user info : String)
      (favorite : Bool),
      ((∃ e, lfParseWebdavRecords env xmlparse sc text user info favorite
          = .error (NcErr.nc e)) ↔
        (¬(200 ≤ sc ∧ sc < 300) ∨ sc ≠ 207 ∨ text = "" ∨
          ((xmlparse text).err.isSome = true))) ∧
      (∀ ex msg, sc = 207 → text ≠ "" → (xmlparse text).err = some (ex, msg) →
        lfParseWebdavRecords env xmlparse sc text user info favorite
          = .error (NcErr.nc ⟨none, pyReplace (ex ++ ": " ++ msg) "\n" "", info⟩)) := by
  intro env xmlparse sc text user info favorite
  refine ⟨?_, ?_⟩
  · by_cases hA : 200 ≤ sc ∧ sc < 300
    · by_cases hB : sc = 207
      · by_cases hC : text = ""
        · constructor
          · intro _; exact Or.inr (Or.inr (Or.inl hC))
          · intro _
            refine ⟨⟨some sc, "Response is empty.", info⟩, ?_⟩
            subst hB
            simp [lfParseWebdavRecords, check_error, hC]
        · cases hD : (xmlparse text).err with
          | some p =>
            obtain ⟨ex, msg⟩ := p
            constructor
            · intro _
              exact Or.inr (Or.inr (Or.inr rfl))
            · intro _
              refine ⟨⟨none, pyReplace (ex ++ ": " ++ msg) "\n" "", info⟩, ?_⟩
              subst hB
              simp [lfParseWebdavRecords, check_error, hC, hD]
          | none =>
            constructor
            · rintro ⟨e, he⟩
              exfalso
              subst hB
              simp only [lfParseWebdavRecords, check_error] at he
              rw [if_pos (by norm_num)] at he
              rw [if_neg (by simp)] at he
              rw [if_neg hC] at he
              rw [hD] at he
              dsimp only at he
              split at he
              · exact absurd he (by simp)
              · split at he
                · exact absurd he (by simp)
                · exact absurd he (by simp)
            · intro hor
              exfalso
              rcases hor with h | h | h | h
              · exact h hA
              · exact h hB
              · exact hC h
              · exact absurd h (by simp)
      · constructor
        · intro _; exact Or.inr (Or.inl hB)
        · intro _
          refine ⟨⟨some sc, "Response is not a multistatus.", info⟩, ?_⟩
          simp [lfParseWebdavRecords, check_error, hA, bne_iff_ne.mpr hB]
    · constructor
      · intro _; exact Or.inl hA
      · intro _
        refine ⟨⟨some sc, "", info⟩, ?_⟩
        simp [lfParseWebdavRecords, check_error, hA]
  · intro ex msg h207 hne hD
    subst h207
    simp [lfParseWebdavRecords, check_error, hne, hD]

/- A parse result carrying the protocol's top-level error payload. -/
def errDoc : ParsedDoc := ⟨some ("RemoteException", "boom"), none⟩

/-- C4 witness: the payload case at a concrete response. -/
theorem c4_decoder_error_conditions_witness :
    lfParseWebdavRecords env0 (fun _ => errDoc) 207 "x" "bob" "info" false
      = .error (NcErr.nc ⟨none, pyReplace ("RemoteException" ++ ": " ++ "boom") "\n" "", "info"⟩) :=
  (c4_decoder_error_conditions env0 (fun _ => errDoc) 207 "x" "bob" "info" false).2
    "RemoteException" "boom" rfl (by decide) rfl

/- When exactly one node of the list matches the queried directory,
removing the first match shortens the list by one and leaves no
matching node behind. -/
theorem removeFirstSelf_unique (fp : String) :
    ∀ (l : List FsNode),
      l.countP (fun v => pyRstripSlash v.full_path == fp) = 1 →
      (removeFirstSelf fp l).length + 1 = l.length ∧
      ∀ n ∈ removeFirstSelf fp l, pyRstripSlash n.full_path ≠ fp
  | [], h => by simp at h
  | v :: rest, h => by
    by_cases hv : pyRstripSlash v.full_path = fp
    · rw [removeFirstSelf, if_pos hv]
      have hc : rest.countP (fun v => pyRstripSlash v.full_path == fp) = 0 := by
        rw [List.countP_cons] at h
        simpa [hv] using h
      refine ⟨rfl, ?_⟩
      intro n hn heq
      have := List.countP_eq_zero.mp hc n hn
      simp [heq] at this
    · rw [removeFirstSelf, if_neg hv]
      have h' : rest.countP (fun v => pyRstripSlash v.full_path == fp) = 1 := by
        rw [List.countP_cons] at h
        simpa [hv] using h
      obtain ⟨ih1, ih2⟩ := removeFirstSelf_unique fp rest h'
      constructor
      · simp only [List.length_cons, ← ih1]
      · intro n hn
        rcases List.mem_cons.mp hn with rfl | hn2
        · exact hv
        · exact ih2 n hn2

/- A list with no matching node is left untouched. -/
theorem removeFirstSelf_of_no_match (fp : String) :
    ∀ (l : List FsNode),
      (∀ v ∈ l, pyRstripSlash v.full_path ≠ fp) → removeFirstSelf fp l = l
  | [], _ => rfl
  | v :: rest, h => by
    rw [removeFirstSelf, if_neg (h v (by simp)),
      removeFirstSelf_of_no_match fp rest (fun x hx => h x (by simp [hx]))]

/- Removing the first match from an explicit decomposition deletes
exactly that occurrence and preserves everything else in order. -/
theorem removeFirstSelf_splice (fp : String) :
    ∀ (l1 : List FsNode) (m : FsNode) (l2 : List FsNode),
      (∀ v ∈ l1, pyRstripSlash v.full_path ≠ fp) →
      pyRstripSlash m.full_path = fp →
      removeFirstSelf fp (l1 ++ m :: l2) = l1 ++ l2
  | [], m, l2, _, hm => by
    rw [List.nil_append, removeFirstSelf, if_pos hm, List.nil_append]
  | v :: l1, m, l2, h, hm => by
    rw [List.cons_append, removeFirstSelf, if_neg (h v (by simp)),
      removeFirstSelf_splice fp l1 m l2 (fun x hx => h x (by simp [hx])) hm,
      List.cons_append]

/-- C5: when the decoded node list contains the queried directory's own
entry exactly once among `N + 1` entries, `listdir` with
`exclude_self = True` returns exactly `N` nodes, none of whose full
paths (trailing slashes ignored) equals the queried directory's full
path. -/
theorem c5_listdir_excludes_self :
    ∀ (env : Env) (xmlparse : String → ParsedDoc) (sc : Int) (text user path : String)
      (l : List FsNode) (N : Nat),
      lfParseWebdavRecords env xmlparse sc text user (listdirRequestInfo user path) false
        = .ok l →
      l.countP (fun v => pyRstripSlash v.full_path == listdirSelfPath user path) = 1 →
      l.length = N + 1 →
      ∃ res, listdirModel env xmlparse sc text user path true = .ok res ∧
        res.length = N ∧
        ∀ n ∈ res, pyRstripSlash n.full_path ≠ listdirSelfPath user path := by
  intro env xmlparse sc text user path l N hlf hcount hlen
  obtain ⟨h1, h2⟩ := removeFirstSelf_unique (listdirSelfPath user path) l hcount
  refine ⟨removeFirstSelf (listdirSelfPath user path) l, ?_, ?_, h2⟩
  · unfold listdirModel
    rw [hlf]
    rfl
  · omega

/- Concrete multistatus content for the listing witnesses: the account
root reflected back plus one child. -/
def childRecord : WebDavRecord :=
  ⟨some "/remote.php/dav/files/bob/Docs", .one ⟨some "HTTP/1.1 200 OK", [("oc:fileid", "7")]⟩⟩

def listDoc : ParsedDoc := ⟨none, some (.many [selfEntryRecord, childRecord])⟩

def selfNode : FsNode := ⟨"bob", "", "bob", ⟨"", 42, "", 0, 0, 0, "", false⟩⟩

def childNode : FsNode := ⟨"bob", "Docs", "Docs", ⟨"", 7, "", 0, 0, 0, "", false⟩⟩

/-- C5 witness: a two-entry listing of the account root (self plus one
child) shrinks to exactly the child. -/
theorem c5_listdir_excludes_self_witness :
    ∃ res, listdirModel env0 (fun _ => listDoc) 207 "t" "bob" "" true = .ok res ∧
      res.length = 1 ∧
      ∀ n ∈ res, pyRstripSlash n.full_path ≠ listdirSelfPath "bob" "" :=
  c5_listdir_excludes_self env0 (fun _ => listDoc) 207 "t" "bob" "" [selfNode, childNode] 1
    (by rfl) (by decide) (by decide)

/-- C10: with `exclude_self = True`, `listdir` post-processes the
decoded list by deleting only the first node whose right-stripped full
path equals the queried directory's path: a list with no such node is
returned unchanged, and in a decomposition `l1 ++ m :: l2` whose first
match is `m`, exactly `m` is dropped — later matches in `l2` survive
and the relative order of the rest is preserved. -/
theorem c10_exclude_self_removes_first_only :
    ∀ (env : Env) (xmlparse : String → ParsedDoc) (sc : Int) (text user path : String)
      (l : List FsNode),
      lfParseWebdavRecords env xmlparse sc text user (listdirRequestInfo user path) false
        = .ok l →
      listdirModel env xmlparse sc text user path true
        = .ok (removeFirstSelf (listdirSelfPath user path) l) ∧
      ((∀ v ∈ l, pyRstripSlash v.full_path ≠ listdirSelfPath user path) →
        removeFirstSelf (listdirSelfPath user path) l = l) ∧
      (∀ (l1 : List FsNode) (m : FsNode) (l2 : List FsNode),
        l = l1 ++ m :: l2 →
        (∀ v ∈ l1, pyRstripSlash v.full_path ≠ listdirSelfPath user path) →
        pyRstripSlash m.full_path = listdirSelfPath user path →
        removeFirstSelf (listdirSelfPath user path) l = l1 ++ l2) := by
  intro env xmlparse sc text user path l hlf
  refine ⟨?_, ?_, ?_⟩
  · unfold listdirModel
    rw [hlf]
    rfl
  · exact removeFirstSelf_of_no_match (listdirSelfPath user path) l
  · intro l1 m l2 hdec h1 hm
    rw [hdec]
    exact removeFirstSelf_splice (listdirSelfPath user path) l1 m l2 h1 hm

/-- C10 witness: in the concrete two-entry listing the self entry (the
first match) is deleted and the child survives in place. -/
theorem c10_exclude_self_removes_first_only_witness :
    listdirModel env0 (fun _ => listDoc) 207 "t" "bob" "" true
      = .ok (removeFirstSelf (listdirSelfPath "bob" "") [selfNode, childNode]) ∧
    removeFirstSelf (listdirSelfPath "bob" "") [selfNode, childNode] = [] ++ [childNode] :=
  ⟨(c10_exclude_self_removes_first_only env0 (fun _ => listDoc) 207 "t" "bob" ""
      [selfNode, childNode] (by rfl)).1,
   (c10_exclude_self_removes_first_only env0 (fun _ => listDoc) 207 "t" "bob" ""
      [selfNode, childNode] (by rfl)).2.2 [] selfNode [childNode] rfl (by simp) (by decide)⟩

/- With `exist_ok = True`, a run in which every single-level create
either succeeds or reports 405 visits every cumulative path in
root-to-leaf order and returns normally. -/
theorem makedirsLoop_tolerant (mk : String → Option Int) :
    ∀ (parts : List String) (acc : String),
      (∀ q ∈ makedirsPaths acc parts, mk q = none ∨ mk q = some 405) →
      makedirsLoop mk true acc parts = (makedirsPaths acc parts, none)
  | [], _, _ => rfl
  | i :: rest, acc, h => by
    have hrec := makedirsLoop_tolerant mk rest (pyJoin acc i)
      (fun q hq => h q (by simp [makedirsPaths, hq]))
    rcases h (pyJoin acc i) (by simp [makedirsPaths]) with hm | hm
    · rw [makedirsLoop, hm]
      simp only [makedirsPaths, hrec]
    · rw [makedirsLoop, hm]
      simp only [makedirsPaths, hrec]
      rfl

/- When every single-level create succeeds, both modes visit every
cumulative path in root-to-leaf order and return normally. -/
theorem makedirsLoop_success (mk : String → Option Int) (exist_ok : Bool) :
    ∀ (parts : List String) (acc : String),
      (∀ q ∈ makedirsPaths acc parts, mk q = none) →
      makedirsLoop mk exist_ok acc parts = (makedirsPaths acc parts, none)
  | [], _, _ => rfl
  | i :: rest, acc, h => by
    rw [makedirsLoop, h (pyJoin acc i) (by simp [makedirsPaths])]
    simp only [makedirsPaths,
      makedirsLoop_success mk exist_ok rest (pyJoin acc i)
        (fun q hq => h q (by simp [makedirsPaths, hq]))]

/-- C9: `makedirs` issues one single-level create per path segment, on
the cumulative joined paths in root-to-leaf order; with
`exist_ok = True` a 405 ("already exists") on any segment is swallowed
and the loop continues — so a rerun in which every segment already
exists still succeeds — while any other failure code is re-raised at
that segment; with `exist_ok = False` every failure is re-raised at the
failing segment. -/
theorem c9_makedirs :
    ∀ (mk : String → Option Int) (path : String),
      ((∀ q ∈ makedirsPaths "" (pathParts path), mk q = none ∨ mk q = some 405) →
        makedirs mk path true = (makedirsPaths "" (pathParts path), none)) ∧
      (∀ (acc i : String) (rest : List String) (c : Int),
        mk (pyJoin acc i) = some c → c ≠ 405 →
        makedirsLoop mk true acc (i :: rest) = ([pyJoin acc i], some c)) ∧
      (∀ (acc i : String) (rest : List String) (c : Int),
        mk (pyJoin acc i) = some c →
        makedirsLoop mk false acc (i :: rest) = ([pyJoin acc i], some c)) ∧
      ((∀ q ∈ makedirsPaths "" (pathParts path), mk q = none) →
        makedirs mk path false = (makedirsPaths "" (pathParts path), none)) := by
  intro mk path
  refine ⟨?_, ?_, ?_, ?_⟩
  · intro h
    exact makedirsLoop_tolerant mk (pathParts path) "" h
  · intro acc i rest c hc hne
    rw [makedirsLoop, hc]
    simp [bne_iff_ne.mpr hne]
  · intro acc i rest c hc
    rw [makedirsLoop, hc]
    rfl
  · intro h
    exact makedirsLoop_success mk false (pathParts path) "" h

/-- C9 witness: a rerun of `makedirs("a/b/c", exist_ok=True)` on which
the platform reports 405 for every segment still succeeds and visits
`a`, `a/b`, `a/b/c` in order; a 500 aborts at the first segment; with
`exist_ok = False` even a 405 aborts; and an all-success run visits the
same ordered paths. -/
theorem c9_makedirs_witness :
    makedirs (fun _ => some 405) "a/b/c" true
      = (makedirsPaths "" (pathParts "a/b/c"), none) ∧
    makedirsLoop (fun _ => some 500) true "" ["a", "b"] = (["a"], some 500) ∧
    makedirsLoop (fun _ => some 405) false "" ["a", "b"] = (["a"], some 405) ∧
    makedirs (fun _ => none) "a/b/c" false
      = (makedirsPaths "" (pathParts "a/b/c"), none) :=
  ⟨(c9_makedirs (fun _ => some 405) "a/b/c").1 (by decide),
   (c9_makedirs (fun _ => some 500) "x").2.1 "" "a" ["b"] 500 rfl (by decide),
   (c9_makedirs (fun _ => some 405) "x").2.2.1 "" "a" ["b"] 405 rfl,
   (c9_makedirs (fun _ => none) "a/b/c").2.2.2 (fun _ _ => rfl)⟩

/-- C2 witness: the shape half of the theorem applied to the concrete
flat expression. -/
theorem c2_and_consumes_two_operands_witness :
    ∃ c1 c2 tl,
      [XML.elem "d:and" none
         [XML.elem "d:eq" none
            [XML.elem "d:prop" none [XML.elem "oc:fileid" none []],
             XML.elem "d:literal" (some "42") []],
          XML.elem "d:eq" none
            [XML.elem "d:prop" none [XML.elem "oc:favorite" none []],
             XML.elem "d:literal" (some "True") []]]]
        = XML.elem "d:and" none [c1, c2] :: tl :=
  c2_and_consumes_two_operands.1
    [Val.s "eq", Val.s "fileid", Val.i 42, Val.s "eq", Val.s "favorite", Val.b true]
    _ c2_and_consumes_two_operands.2

end NcPyApi
